import Mathlib

/-
Verification of the nautical-arduino-monitor firmware.

The repository ships one Arduino sketch file that concatenates three
successive revisions of the firmware, plus a README that embeds a fourth
revision:
  - revision A ("v1.6", sketch lines 1-208): separate senders
    sendBatteryData / sendWaterTankData / sendCurrentData /
    sendEnvironmentData, no alarm logic wired in.
  - revision B (sketch lines 210-459, here suffixed _mid): a combined
    sendAllData, a display-mode aware updateLEDs and a handleButton that
    toggles displayMode.
  - revision C ("v1.2", sketch lines 461-714, here suffixed _v12): a
    combined sendAllData with source descriptor, a mode-less updateLEDs
    and a handleButton that toggles detailedMode.
  - revision R (README lines 156-335, here suffixed _readme): senders with
    NaN guards on the environment fields and capacity reporting.

Floating point values are modelled as rationals (Rat); an invalid (NaN)
sensor reading is modelled as Option.none, and arithmetic on possibly
invalid readings propagates none.  Machine integers from analogRead are
modelled as Nat (the ADC yields 0..1023).  Times from millis() are Nat
milliseconds.
-/

/-- Battery configuration record, struct BatteryConfig of the sketch
(minimum voltage, maximum voltage, multiplicative calibration). -/
structure BatteryConfig where
  min_voltage : Rat
  max_voltage : Rat
  calibration : Rat
deriving DecidableEq

/-- batteries[0] of the sketch: lead-acid, 11.8 V .. 12.6 V, calibration 1.02.
The same three rows appear in all revisions (sketch lines 41-45, 237-241,
500-504). -/
def battery0 : BatteryConfig := ⟨11.8, 12.6, 1.02⟩

/-- batteries[1] of the sketch: lithium, 12.0 V .. 14.6 V, calibration 1.01. -/
def battery1 : BatteryConfig := ⟨12.0, 14.6, 1.01⟩

/-- batteries[2] of the sketch: AGM, 10.5 V .. 12.5 V, calibration 1.03. -/
def battery2 : BatteryConfig := ⟨10.5, 12.5, 1.03⟩

/-- Divider ratio (R1 + R2) / R2 with R1 = 680 kOhm and R2 = 80 kOhm
(sketch lines 48-50, 244, 507). -/
def VOLTAGE_DIVIDER_RATIO : Rat := (680000 + 80000) / 80000

/-- Shunt resistance, 300 A / 75 mV, i.e. 0.00025 Ohm (sketch lines 53, 247, 510). -/
def SHUNT_RESISTANCE : Rat := 0.00025

/-- Shunt calibration factor (sketch lines 54, 248, 511). -/
def SHUNT_CALIBRATION : Rat := 1.0

/-- Gas threshold on the raw ADC sample (sketch lines 251, 514). -/
def GAS_THRESHOLD : Nat := 500

/-- Arduino constrain(amt, low, high): low if amt < low, else high if
amt > high, else amt. -/
def constrain (amt low high : Rat) : Rat :=
  if amt < low then low else if amt > high then high else amt

/-- calculateSOC of the sketch (lines 74-76, 271-273, 536-538):
constrain((voltage - minV) / (maxV - minV) * 100.0, 0.0, 100.0). -/
def calculateSOC (voltage minV maxV : Rat) : Rat :=
  constrain ((voltage - minV) / (maxV - minV) * 100.0) 0.0 100.0

/-- readBatteryVoltage of revisions A/B/C (lines 66-71, 265-269, 529-533):
v_out = raw * 3.3 / 1023, then the divider ratio and the per-battery
calibration factor.  raw is the analogRead sample. -/
def readBatteryVoltage (raw : Nat) (calibration : Rat) : Rat :=
  (raw : Rat) * 3.3 / 1023 * VOLTAGE_DIVIDER_RATIO * calibration

/-- readBatteryVoltage of revision R (README lines 214-217): 0-25 V sensor,
(raw * 5.0) / 1023.0 * 5.0. -/
def readBatteryVoltage_readme (raw : Nat) : Rat :=
  (raw : Rat) * 5.0 / 1023 * 5.0

/-- readWaterLevel (lines 79-81, 275-277, 541-543):
map(raw, 0, 1023, 0, 100) / 100.0.  Arduino map works on integers, so the
mapped value is the truncated integer division raw * 100 / 1023. -/
def readWaterLevel (raw : Nat) : Rat :=
  ((raw * 100 / 1023 : Nat) : Rat) / 100

/-- readCurrent (lines 84-89, 279-283, 546-550): v_shunt = raw * 3.3 / 1023,
then current = v_shunt / SHUNT_RESISTANCE * SHUNT_CALIBRATION. -/
def readCurrent (raw : Nat) : Rat :=
  (raw : Rat) * 3.3 / 1023 / SHUNT_RESISTANCE * SHUNT_CALIBRATION

/-- checkGasLeak (lines 290-293, 559-562): true when the raw gas sample
exceeds GAS_THRESHOLD. -/
def checkGasLeak (raw : Nat) : Bool :=
  decide (raw > GAS_THRESHOLD)

/-- Display mode of revision B.  The sketch stores it as the String
"Batteries" or "Water" (line 260); these are the only two values ever
assigned (initialisation and the toggle in handleButton), so it is
modelled as a two-constructor enumeration. -/
inductive DisplayMode where
  | Batteries
  | Water
deriving DecidableEq

/-- The toggle displayMode == "Batteries" ? "Water" : "Batteries"
(sketch line 426). -/
def toggleMode : DisplayMode → DisplayMode
  | .Batteries => .Water
  | .Water => .Batteries

/-- Snapshot of the outputs written by updateLEDs: the three LED lines,
the alarmActive global and whether the buzzer is sounding (tone vs noTone). -/
structure LEDState where
  red : Bool
  yellow : Bool
  green : Bool
  alarmActive : Bool
  buzzerOn : Bool
deriving DecidableEq

/-- updateLEDs of revision B (sketch lines 297-361).  Inputs: the current
display mode, gasLeak, the three battery voltages, the water level, the
three readCurrent() results sampled inside the loop, the current level of
the red LED pin (read back for the blink), the static lastBlinkTime and
millis().  Returns the written outputs together with the new
lastBlinkTime.  The buzzer line is driven after the branch:
tone iff alarmActive and gasLeak. -/
def updateLEDs_mid (mode : DisplayMode) (gasLeak : Bool)
    (v0 v1 v2 waterLevel c0 c1 c2 : Rat)
    (prevRed : Bool) (lastBlinkTime now : Nat) : LEDState × Nat :=
  let core : LEDState × Nat :=
    match mode with
    | .Batteries =>
      if gasLeak = true ∨ v0 < battery0.min_voltage ∨ v1 < battery1.min_voltage ∨
          v2 < battery2.min_voltage then
        (⟨true, false, false, true, false⟩, lastBlinkTime)
      else if c0 < 0 ∨ c1 < 0 ∨ c2 < 0 then
        (⟨false, true, false, false, false⟩, lastBlinkTime)
      else
        (⟨false, false, true, false, false⟩, lastBlinkTime)
    | .Water =>
      if gasLeak then
        (⟨true, false, false, true, false⟩, lastBlinkTime)
      else if waterLevel > 0.7 then
        (⟨false, false, true, false, false⟩, lastBlinkTime)
      else if waterLevel > 0.3 ∧ waterLevel ≤ 0.7 then
        (⟨false, true, false, false, false⟩, lastBlinkTime)
      else
        if now - lastBlinkTime ≥ 500 then
          (⟨!prevRed, false, false, true, false⟩, now)
        else
          (⟨prevRed, false, false, true, false⟩, lastBlinkTime)
  ({ core.1 with buzzerOn := core.1.alarmActive && gasLeak }, core.2)

/-- updateLEDs of revision C (sketch lines 567-605).  Inputs: gasLeak, the
single current value passed in by sendAllData, and the three battery
voltages.  The buzzer is driven by alarmActive alone (lines 600-604). -/
def updateLEDs_v12 (gasLeak : Bool) (current : Rat) (v0 v1 v2 : Rat) : LEDState :=
  let core : LEDState :=
    if gasLeak = true ∨ v0 < battery0.min_voltage ∨ v1 < battery1.min_voltage ∨
        v2 < battery2.min_voltage then
      ⟨true, false, false, true, false⟩
    else if current < 0 then
      ⟨false, true, false, false, false⟩
    else
      ⟨false, false, true, false, false⟩
  { core with buzzerOn := core.alarmActive }

/-- The globals read and written by handleButton of revision B
(sketch lines 259-261, 418-439) together with the outputs it drives on the
alarm-reset path (LED_RED low, noTone). -/
structure ButtonState where
  displayMode : DisplayMode
  alarmActive : Bool
  buttonPressTime : Nat
  ledRed : Bool
  buzzerOn : Bool
deriving DecidableEq

/-- One call of handleButton of revision B (sketch lines 418-439).
pressed is digitalRead(SWITCH_PIN) == LOW, now is millis().  While
pressed: record the press start when buttonPressTime is 0, otherwise
toggle displayMode and rearm once 2000 ms have elapsed.  On a released
poll: if a press shorter than 2000 ms was in progress, clear the alarm,
switch the red LED off and silence the buzzer; always clear
buttonPressTime. -/
def handleButton (pressed : Bool) (now : Nat) (s : ButtonState) : ButtonState :=
  if pressed then
    if s.buttonPressTime = 0 then
      { s with buttonPressTime := now }
    else if now - s.buttonPressTime ≥ 2000 then
      { s with displayMode := toggleMode s.displayMode, buttonPressTime := 0 }
    else
      s
  else
    if s.buttonPressTime > 0 ∧ now - s.buttonPressTime < 2000 then
      { s with alarmActive := false, ledRed := false, buzzerOn := false,
               buttonPressTime := 0 }
    else
      { s with buttonPressTime := 0 }

/-- Iterate handleButton over a list of polls (pressed flag, millis value),
returning the final state together with the number of polls at which
displayMode changed. -/
def handleButtonRun (s : ButtonState) : List (Bool × Nat) → ButtonState × Nat
  | [] => (s, 0)
  | p :: ps =>
    let s2 := handleButton p.1 p.2 s
    let r := handleButtonRun s2 ps
    (r.1, (if s2.displayMode = s.displayMode then 0 else 1) + r.2)

/-- A JSON value attached to a path: a number, a boolean, or the
serialization of an invalid float (NaN), which ArduinoJson renders as a
null placeholder rather than a number. -/
inductive JValue where
  | num (q : Rat)
  | bool (b : Bool)
  | nan
deriving DecidableEq

/-- Serialization of a float reading that may be invalid (none = NaN). -/
def floatVal : Option Rat → JValue
  | some q => .num q
  | none => .nan

/-- True when a JSON value is an actual number (neither a boolean nor the
null placeholder of an invalid float). -/
def isNumericValue : JValue → Bool
  | .num _ => true
  | .bool _ => false
  | .nan => false

/-- The path electrical.batteries.<i>.<field>, built in the sketch with
String(i) concatenation. -/
def batPath (i : Nat) (field : String) : String :=
  "electrical.batteries." ++ toString i ++ "." ++ field

/-- One element of the top-level updates array of an emitted JSON
document: the optional source descriptor (label, type), the millis()
timestamp, and the path/value list.  Every sender in the repository
builds exactly one such element per document. -/
structure UpdateDoc where
  source : Option (String × String)
  timestamp : Nat
  values : List (String × JValue)
deriving DecidableEq

/-- sendBatteryData of revision A (sketch lines 100-125): source
descriptor, millis() timestamp, and voltage plus stateOfCharge entries
for the three batteries (stateOfCharge is the SOC percentage divided by
100). -/
def sendBatteryData_v16 (now raw0 raw1 raw2 : Nat) : UpdateDoc :=
  let entries := fun (i raw : Nat) (b : BatteryConfig) =>
    let voltage := readBatteryVoltage raw b.calibration
    [(batPath i "voltage", JValue.num voltage),
     (batPath i "stateOfCharge",
       JValue.num (calculateSOC voltage b.min_voltage b.max_voltage / 100.0))]
  { source := some ("arduino-mini", "sensor"), timestamp := now,
    values := entries 0 raw0 battery0 ++ entries 1 raw1 battery1 ++
      entries 2 raw2 battery2 }

/-- sendWaterTankData of revision A (sketch lines 128-145). -/
def sendWaterTankData_v16 (now waterRaw : Nat) : UpdateDoc :=
  { source := some ("arduino-mini", "sensor"), timestamp := now,
    values := [("tanks.freshWater.0.currentLevel",
      JValue.num (readWaterLevel waterRaw))] }

/-- sendCurrentData of revision A (sketch lines 148-165). -/
def sendCurrentData_v16 (now shuntRaw : Nat) : UpdateDoc :=
  { source := some ("arduino-mini", "sensor"), timestamp := now,
    values := [("electrical.batteries.0.current",
      JValue.num (readCurrent shuntRaw))] }

/-- sendEnvironmentData of revision A (sketch lines 168-192): temperature
shifted to kelvin, humidity divided by 100.  There is no NaN guard, so an
invalid reading is serialized (as a null placeholder) instead of being
omitted. -/
def sendEnvironmentData_v16 (now : Nat) (temperature humidity : Option Rat) :
    UpdateDoc :=
  { source := some ("arduino-mini", "sensor"), timestamp := now,
    values :=
      [("environment.inside.temperature",
         floatVal (temperature.map (· + 273.15))),
       ("environment.inside.relativeHumidity",
         floatVal (humidity.map (· / 100.0)))] }

/-- sendAllData of revision B (sketch lines 365-415).  The update object
receives only a timestamp and the values array: no source descriptor is
created.  Temperature is converted to kelvin; humidity is sent raw
(line 405 assigns the undivided humidity).  Neither has a NaN guard. -/
def sendAllData_mid (now raw0 raw1 raw2 waterRaw shuntRaw : Nat)
    (temperature humidity : Option Rat) (gasRaw : Nat) : UpdateDoc :=
  let entries := fun (i raw : Nat) (b : BatteryConfig) =>
    let voltage := readBatteryVoltage raw b.calibration
    [(batPath i "voltage", JValue.num voltage),
     (batPath i "stateOfCharge",
       JValue.num (calculateSOC voltage b.min_voltage b.max_voltage / 100.0))]
  { source := none, timestamp := now,
    values :=
      entries 0 raw0 battery0 ++ entries 1 raw1 battery1 ++
      entries 2 raw2 battery2 ++
      [("tanks.freshWater.0.currentLevel", JValue.num (readWaterLevel waterRaw)),
       ("electrical.batteries.0.current", JValue.num (readCurrent shuntRaw)),
       ("environment.inside.temperature",
         floatVal (temperature.map (· + 273.15))),
       ("environment.inside.relativeHumidity", floatVal humidity),
       ("safety.gasLeak", JValue.bool (checkGasLeak gasRaw))] }

/-- sendAllData of revision C (sketch lines 610-667): source descriptor
present; temperature is sent raw in celsius (line 650 assigns the
unconverted reading), humidity is divided by 100.  Neither has a NaN
guard. -/
def sendAllData_v12 (now raw0 raw1 raw2 shuntRaw waterRaw : Nat)
    (temperature humidity : Option Rat) (gasRaw : Nat) : UpdateDoc :=
  let entries := fun (i raw : Nat) (b : BatteryConfig) =>
    let voltage := readBatteryVoltage raw b.calibration
    [(batPath i "voltage", JValue.num voltage),
     (batPath i "stateOfCharge",
       JValue.num (calculateSOC voltage b.min_voltage b.max_voltage / 100.0))]
  { source := some ("arduino-mini", "sensor"), timestamp := now,
    values :=
      entries 0 raw0 battery0 ++ entries 1 raw1 battery1 ++
      entries 2 raw2 battery2 ++
      [("electrical.batteries.0.current", JValue.num (readCurrent shuntRaw)),
       ("tanks.freshWater.0.currentLevel", JValue.num (readWaterLevel waterRaw)),
       ("environment.inside.temperature", floatVal temperature),
       ("environment.inside.relativeHumidity",
         floatVal (humidity.map (· / 100.0))),
       ("safety.gasLeak", JValue.bool (checkGasLeak gasRaw))] }

/-- sendBatteryData of revision R (README lines 234-273): voltage, SOC
fraction and remaining capacity in coulombs for each battery, with the
README battery table (capacities 100, 80, 60 Ah). -/
def sendBatteryData_readme (now raw0 raw1 raw2 : Nat) : UpdateDoc :=
  let entries := fun (i raw : Nat) (minV maxV capacity : Rat) =>
    let voltage := readBatteryVoltage_readme raw
    let soc := calculateSOC voltage minV maxV
    [(batPath i "voltage", JValue.num voltage),
     (batPath i "stateOfCharge", JValue.num (soc / 100.0)),
     (batPath i "capacity.remaining",
       JValue.num (soc / 100.0 * capacity * 3600.0))]
  { source := some ("arduino-mini", "sensor"), timestamp := now,
    values := entries 0 raw0 11.8 12.6 100 ++ entries 1 raw1 12.0 14.6 80 ++
      entries 2 raw2 10.5 12.5 60 }

/-- sendEnvironmentData of revision R (README lines 275-303): the only
sender with NaN guards.  Each environment entry is appended only when the
corresponding reading isnan check fails, so an invalid reading is omitted
from the values list for that cycle. -/
def sendEnvironmentData_readme (now : Nat) (temperature humidity : Option Rat) :
    UpdateDoc :=
  { source := some ("arduino-mini", "sensor"), timestamp := now,
    values :=
      (match temperature with
       | some t => [("environment.inside.temperature", JValue.num (t + 273.15))]
       | none => []) ++
      (match humidity with
       | some h => [("environment.inside.relativeHumidity", JValue.num (h / 100.0))]
       | none => []) }

/-- sendWaterTankData of revision R (README lines 305-323). -/
def sendWaterTankData_readme (now waterRaw : Nat) : UpdateDoc :=
  { source := some ("arduino-mini", "sensor"), timestamp := now,
    values := [("tanks.freshWater.0.currentLevel",
      JValue.num (readWaterLevel waterRaw))] }

/-- Helper: the constrain band 0..100 is honoured for every input. -/
lemma constrain_band (x : Rat) :
    0 ≤ constrain x 0.0 100.0 ∧ constrain x 0.0 100.0 ≤ 100.0 := by
  unfold constrain
  split_ifs with h1 h2
  · norm_num
  · norm_num
  · norm_num at h1 h2
    exact ⟨h1, by linarith⟩

/-- C4: for bounds with minV < maxV the transmitted state of charge
calculateSOC/100 always lies in [0, 1], is exactly 0 at minV and exactly
1 at maxV, including for voltage inputs outside the configured band. -/
theorem calculateSOC_clamped_and_exact (minV maxV v : Rat) (h : minV < maxV) :
    (0 ≤ calculateSOC v minV maxV / 100.0 ∧ calculateSOC v minV maxV / 100.0 ≤ 1) ∧
    calculateSOC minV minV maxV / 100.0 = 0 ∧
    calculateSOC maxV minV maxV / 100.0 = 1 := by
  have hd : (0 : Rat) < maxV - minV := by linarith
  refine ⟨⟨?_, ?_⟩, ?_, ?_⟩
  · exact div_nonneg (constrain_band _).1 (by norm_num)
  · rw [div_le_one (by norm_num : (0 : Rat) < 100.0)]
    exact (constrain_band _).2
  · unfold calculateSOC
    rw [sub_self, zero_div, zero_mul]
    unfold constrain
    norm_num
  · unfold calculateSOC
    rw [div_self (ne_of_gt hd), one_mul]
    unfold constrain
    norm_num

/-- Witness for calculateSOC_clamped_and_exact at the battery 0 bounds. -/
theorem calculateSOC_clamped_and_exact_witness :
    ((0 ≤ calculateSOC 12 11.8 12.6 / 100.0 ∧ calculateSOC 12 11.8 12.6 / 100.0 ≤ 1) ∧
     calculateSOC 11.8 11.8 12.6 / 100.0 = 0 ∧
     calculateSOC 12.6 11.8 12.6 / 100.0 = 1) :=
  calculateSOC_clamped_and_exact 11.8 12.6 12 (by norm_num)

/-- C5: a detected gas leak forces the critical state - red LED on, yellow
and green off, alarmActive true - in both updateLEDs variants, in every
display mode and whatever the battery voltages, water level and current
samples are. -/
theorem updateLEDs_gas_leak_critical (mode : DisplayMode)
    (v0 v1 v2 w c0 c1 c2 cur : Rat) (pr : Bool) (lb now : Nat) :
    ((updateLEDs_mid mode true v0 v1 v2 w c0 c1 c2 pr lb now).1.red = true ∧
     (updateLEDs_mid mode true v0 v1 v2 w c0 c1 c2 pr lb now).1.yellow = false ∧
     (updateLEDs_mid mode true v0 v1 v2 w c0 c1 c2 pr lb now).1.green = false ∧
     (updateLEDs_mid mode true v0 v1 v2 w c0 c1 c2 pr lb now).1.alarmActive = true) ∧
    ((updateLEDs_v12 true cur v0 v1 v2).red = true ∧
     (updateLEDs_v12 true cur v0 v1 v2).yellow = false ∧
     (updateLEDs_v12 true cur v0 v1 v2).green = false ∧
     (updateLEDs_v12 true cur v0 v1 v2).alarmActive = true) := by
  cases mode <;> simp [updateLEDs_mid, updateLEDs_v12]

/-- C1 (amended): a battery voltage below its configured minimum forces
the critical state in the Batteries display mode of the revision-B
updateLEDs and unconditionally in the revision-C updateLEDs; the Water
display mode of revision B ignores the battery voltages. -/
theorem updateLEDs_battery_low_critical (gasLeak : Bool)
    (v0 v1 v2 w c0 c1 c2 cur : Rat) (pr : Bool) (lb now : Nat)
    (h : v0 < battery0.min_voltage ∨ v1 < battery1.min_voltage ∨
         v2 < battery2.min_voltage) :
    ((updateLEDs_mid .Batteries gasLeak v0 v1 v2 w c0 c1 c2 pr lb now).1.red = true ∧
     (updateLEDs_mid .Batteries gasLeak v0 v1 v2 w c0 c1 c2 pr lb now).1.yellow = false ∧
     (updateLEDs_mid .Batteries gasLeak v0 v1 v2 w c0 c1 c2 pr lb now).1.green = false ∧
     (updateLEDs_mid .Batteries gasLeak v0 v1 v2 w c0 c1 c2 pr lb now).1.alarmActive = true) ∧
    ((updateLEDs_v12 gasLeak cur v0 v1 v2).red = true ∧
     (updateLEDs_v12 gasLeak cur v0 v1 v2).yellow = false ∧
     (updateLEDs_v12 gasLeak cur v0 v1 v2).green = false ∧
     (updateLEDs_v12 gasLeak cur v0 v1 v2).alarmActive = true) := by
  rcases h with h | h | h <;> simp [updateLEDs_mid, updateLEDs_v12, h]

/-- Witness for updateLEDs_battery_low_critical: battery 0 reading 11 V is
below its 11.8 V minimum. -/
theorem updateLEDs_battery_low_critical_witness :
    ((updateLEDs_mid .Batteries false 11 13 12 0.5 0 0 0 false 0 1000).1.red = true ∧
     (updateLEDs_mid .Batteries false 11 13 12 0.5 0 0 0 false 0 1000).1.yellow = false ∧
     (updateLEDs_mid .Batteries false 11 13 12 0.5 0 0 0 false 0 1000).1.green = false ∧
     (updateLEDs_mid .Batteries false 11 13 12 0.5 0 0 0 false 0 1000).1.alarmActive = true) ∧
    ((updateLEDs_v12 false 0 11 13 12).red = true ∧
     (updateLEDs_v12 false 0 11 13 12).yellow = false ∧
     (updateLEDs_v12 false 0 11 13 12).green = false ∧
     (updateLEDs_v12 false 0 11 13 12).alarmActive = true) :=
  updateLEDs_battery_low_critical false 11 13 12 0.5 0 0 0 0 false 0 1000
    (Or.inl (by norm_num [battery0]))

/-- C1 counterexample: in the Water display mode of the revision-B
updateLEDs, battery 0 at 11 V (below its 11.8 V minimum) yields the
normal state - green on, red off, alarm inactive - when the water level
is high and no gas leak is present, so the low battery does not force
the critical state in every display mode. -/
theorem updateLEDs_mid_water_ignores_low_battery :
    (11 : Rat) < battery0.min_voltage ∧
    (updateLEDs_mid .Water false 11 13 12 0.8 0 0 0 false 0 1000).1.green = true ∧
    (updateLEDs_mid .Water false 11 13 12 0.8 0 0 0 false 0 1000).1.red = false ∧
    (updateLEDs_mid .Water false 11 13 12 0.8 0 0 0 false 0 1000).1.alarmActive = false := by
  norm_num [updateLEDs_mid, battery0]

/-- C6 (amended): in the revision-B updateLEDs the buzzer sounds exactly
when the state is critical and the gas-leak flag is set, so a critical
state from a silenceable cause alone (low battery or critical water) is
silent there; in the revision-C updateLEDs the buzzer sounds whenever the
state is critical, whatever the cause.  The last conjunct exhibits a
silent water-critical state of revision B. -/
theorem updateLEDs_buzzer_policy (mode : DisplayMode) (gasLeak : Bool)
    (v0 v1 v2 w c0 c1 c2 cur : Rat) (pr : Bool) (lb now : Nat) :
    (updateLEDs_mid mode gasLeak v0 v1 v2 w c0 c1 c2 pr lb now).1.buzzerOn =
      ((updateLEDs_mid mode gasLeak v0 v1 v2 w c0 c1 c2 pr lb now).1.alarmActive
        && gasLeak) ∧
    (updateLEDs_v12 gasLeak cur v0 v1 v2).buzzerOn =
      (updateLEDs_v12 gasLeak cur v0 v1 v2).alarmActive ∧
    ((updateLEDs_mid .Water false 13 13 13 0.1 0 0 0 false 0 1000).1.alarmActive = true ∧
     (updateLEDs_mid .Water false 13 13 13 0.1 0 0 0 false 0 1000).1.buzzerOn = false) := by
  refine ⟨rfl, rfl, ?_, ?_⟩ <;> norm_num [updateLEDs_mid]

/-- C6 counterexample: in the revision-C updateLEDs a critical state
caused only by a low battery (gas leak absent) sounds the buzzer, so the
buzzer is not restricted to the non-silenceable gas-leak class there. -/
theorem updateLEDs_v12_buzzer_on_low_battery :
    (11 : Rat) < battery0.min_voltage ∧
    (updateLEDs_v12 false 5 11 13 12).alarmActive = true ∧
    (updateLEDs_v12 false 5 11 13 12).buzzerOn = true := by
  norm_num [updateLEDs_v12, battery0]

/-- Helper: the shunt conversion is non-negative for every raw sample. -/
lemma readCurrent_nonneg (raw : Nat) : 0 ≤ readCurrent raw := by
  unfold readCurrent SHUNT_RESISTANCE SHUNT_CALIBRATION
  positivity

/-- C10: for ADC samples in 0..1023 the shunt conversion readCurrent is
non-negative, so the discharge test current < 0 in updateLEDs never
holds: revision C with a sampled current, and the Batteries mode of
revision B with three sampled currents, never light the yellow LED. -/
theorem readCurrent_no_discharge_warning (raw r0 r1 r2 : Nat)
    (_hraw : raw ≤ 1023) (_h0 : r0 ≤ 1023) (_h1 : r1 ≤ 1023) (_h2 : r2 ≤ 1023)
    (gasLeak : Bool) (v0 v1 v2 w : Rat) (pr : Bool) (lb now : Nat) :
    0 ≤ readCurrent raw ∧
    (updateLEDs_v12 gasLeak (readCurrent raw) v0 v1 v2).yellow = false ∧
    (updateLEDs_mid .Batteries gasLeak v0 v1 v2 w (readCurrent r0) (readCurrent r1)
      (readCurrent r2) pr lb now).1.yellow = false := by
  refine ⟨readCurrent_nonneg raw, ?_, ?_⟩
  · simp only [updateLEDs_v12]
    split_ifs with hA hB
    · rfl
    · exact absurd hB (not_lt.mpr (readCurrent_nonneg raw))
    · rfl
  · simp only [updateLEDs_mid]
    split_ifs with hA hB
    · rfl
    · rcases hB with hB | hB | hB <;>
        exact absurd hB (not_lt.mpr (readCurrent_nonneg _))
    · rfl

/-- Witness for readCurrent_no_discharge_warning at mid-scale and
boundary ADC samples. -/
theorem readCurrent_no_discharge_warning_witness :
    0 ≤ readCurrent 512 ∧
    (updateLEDs_v12 false (readCurrent 512) 12 13 12.2).yellow = false ∧
    (updateLEDs_mid .Batteries false 12 13 12.2 0.5 (readCurrent 0) (readCurrent 100)
      (readCurrent 1023) false 0 5000).1.yellow = false :=
  readCurrent_no_discharge_warning 512 0 100 1023 (by norm_num) (by norm_num)
    (by norm_num) (by norm_num) false 12 13 12.2 0.5 false 0 5000

/-- C3 (amended / holds for revision R): sendEnvironmentData of the README
revision omits the environment.inside.temperature path when the
temperature reading is invalid while still emitting the humidity entry;
the battery message of the same cycle still carries every battery path;
and whatever the readings are, this sender only ever emits numeric
values, never a null or zero placeholder for an unavailable metric.  (The
combined sendAllData revisions emit the temperature entry
unconditionally.) -/
theorem sendEnvironmentData_readme_omits_invalid (now nowB r0 r1 r2 : Nat)
    (h : Rat) (temperature humidity : Option Rat) :
    (sendEnvironmentData_readme now none (some h)).values =
      [("environment.inside.relativeHumidity", JValue.num (h / 100.0))] ∧
    (sendBatteryData_readme nowB r0 r1 r2).values.map Prod.fst =
      [batPath 0 "voltage", batPath 0 "stateOfCharge", batPath 0 "capacity.remaining",
       batPath 1 "voltage", batPath 1 "stateOfCharge", batPath 1 "capacity.remaining",
       batPath 2 "voltage", batPath 2 "stateOfCharge", batPath 2 "capacity.remaining"] ∧
    ((sendEnvironmentData_readme now temperature humidity).values.all
      fun pv => isNumericValue pv.2) = true := by
  refine ⟨rfl, rfl, ?_⟩
  cases temperature <;> cases humidity <;> rfl

/-- C3 counterexample: with an invalid (NaN) temperature the revision-B
sendAllData still emits the environment.inside.temperature path, carrying
the null placeholder that the NaN serializes to, so the path is not
omitted from that cycle. -/
theorem sendAllData_mid_keeps_nan_temperature :
    ("environment.inside.temperature", JValue.nan) ∈
      (sendAllData_mid 0 0 0 0 0 0 none (some 55) 0).values := by
  simp [sendAllData_mid, floatVal]

/-- C8 (amended / holds for revision A): sendEnvironmentData of revision A
reports temperature as celsius + 273.15 and humidity as percentage / 100;
the revision-B sendAllData instead emits the humidity percentage raw, and
the revision-C sendAllData emits the temperature in celsius without the
kelvin shift. -/
theorem environment_unit_conversions (now : Nat) (c h : Rat)
    (r0 r1 r2 wr sr gr : Nat) :
    (sendEnvironmentData_v16 now (some c) (some h)).values =
      [("environment.inside.temperature", JValue.num (c + 273.15)),
       ("environment.inside.relativeHumidity", JValue.num (h / 100.0))] ∧
    ("environment.inside.relativeHumidity", JValue.num h) ∈
      (sendAllData_mid now r0 r1 r2 wr sr (some c) (some h) gr).values ∧
    ("environment.inside.temperature", JValue.num c) ∈
      (sendAllData_v12 now r0 r1 r2 sr wr (some c) (some h) gr).values := by
  refine ⟨rfl, ?_, ?_⟩ <;> simp [sendAllData_mid, sendAllData_v12, floatVal]

/-- C8 counterexample: with a 55 percent humidity reading the revision-B
sendAllData emits the value 55 rather than the fraction 0.55, and with a
25 celsius temperature reading the revision-C sendAllData emits 25 rather
than 298.15, so the claimed conversions do not hold for those reporters. -/
theorem sendAllData_raw_environment_values :
    ("environment.inside.relativeHumidity", JValue.num 55) ∈
      (sendAllData_mid 0 0 0 0 0 0 (some 25) (some 55) 0).values ∧
    ("environment.inside.temperature", JValue.num 25) ∈
      (sendAllData_v12 0 0 0 0 0 0 (some 25) (some 55) 0).values ∧
    (55 : Rat) ≠ 55 / 100.0 ∧
    (25 : Rat) ≠ 25 + 273.15 := by
  refine ⟨?_, ?_, by norm_num, by norm_num⟩ <;>
    simp [sendAllData_mid, sendAllData_v12, floatVal]

/-- C9 (amended): every modelled sender except the revision-B sendAllData
attaches the source descriptor with label arduino-mini and type sensor to
its single update element; the update built by the revision-B sendAllData
carries no source descriptor at all, only the timestamp and the values. -/
theorem source_descriptor_present (now r0 r1 r2 wr sr gr : Nat)
    (temperature humidity : Option Rat) :
    (sendBatteryData_v16 now r0 r1 r2).source = some ("arduino-mini", "sensor") ∧
    (sendWaterTankData_v16 now wr).source = some ("arduino-mini", "sensor") ∧
    (sendCurrentData_v16 now sr).source = some ("arduino-mini", "sensor") ∧
    (sendEnvironmentData_v16 now temperature humidity).source =
      some ("arduino-mini", "sensor") ∧
    (sendAllData_v12 now r0 r1 r2 sr wr temperature humidity gr).source =
      some ("arduino-mini", "sensor") ∧
    (sendBatteryData_readme now r0 r1 r2).source = some ("arduino-mini", "sensor") ∧
    (sendEnvironmentData_readme now temperature humidity).source =
      some ("arduino-mini", "sensor") ∧
    (sendWaterTankData_readme now wr).source = some ("arduino-mini", "sensor") ∧
    (sendAllData_mid now r0 r1 r2 wr sr temperature humidity gr).source = none :=
  ⟨rfl, rfl, rfl, rfl, rfl, rfl, rfl, rfl, rfl⟩

/-- C9 counterexample: the document built by the revision-B sendAllData
has no source descriptor, so not every emitted document carries the
label arduino-mini / type sensor object. -/
theorem sendAllData_mid_missing_source :
    (sendAllData_mid 0 0 0 0 0 0 none none 0).source = none := rfl

/-- Helper: toggling the display mode always changes it. -/
lemma toggleMode_ne (m : DisplayMode) : toggleMode m ≠ m := by
  cases m <;> simp [toggleMode]

/-- Helper: a pressed poll with no press in progress records the press
start. -/
lemma handleButton_press_start (t : Nat) (s : ButtonState)
    (h : s.buttonPressTime = 0) :
    handleButton true t s = { s with buttonPressTime := t } := by
  simp [handleButton, h]

/-- Helper: a pressed poll before the 2000 ms threshold leaves the state
unchanged. -/
lemma handleButton_press_wait (t : Nat) (s : ButtonState)
    (h : s.buttonPressTime ≠ 0) (h2 : t - s.buttonPressTime < 2000) :
    handleButton true t s = s := by
  simp [handleButton, h, not_le.mpr h2]

/-- Helper: a pressed poll at or past the 2000 ms threshold toggles the
display mode and clears the press timer. -/
lemma handleButton_press_toggle (t : Nat) (s : ButtonState)
    (h : s.buttonPressTime ≠ 0) (h2 : 2000 ≤ t - s.buttonPressTime) :
    handleButton true t s =
      { s with displayMode := toggleMode s.displayMode, buttonPressTime := 0 } := by
  simp [handleButton, h, h2]

/-- Helper: a released poll within 2000 ms of the recorded press start
clears the alarm, the red LED and the buzzer. -/
lemma handleButton_release_reset (t : Nat) (s : ButtonState)
    (h : 0 < s.buttonPressTime) (h2 : t - s.buttonPressTime < 2000) :
    handleButton false t s =
      { s with alarmActive := false, ledRed := false, buzzerOn := false,
               buttonPressTime := 0 } := by
  simp [handleButton, h, h2]

/-- Helper: a released poll never changes the display mode. -/
lemma handleButton_release_mode (t : Nat) (s : ButtonState) :
    (handleButton false t s).displayMode = s.displayMode := by
  simp only [handleButton, Bool.false_eq_true, if_false]
  split_ifs <;> rfl

/-- Helper: unfolding one poll of handleButtonRun. -/
lemma handleButtonRun_cons (s : ButtonState) (p : Bool × Nat)
    (ps : List (Bool × Nat)) :
    handleButtonRun s (p :: ps) =
      ((handleButtonRun (handleButton p.1 p.2 s) ps).1,
       (if (handleButton p.1 p.2 s).displayMode = s.displayMode then 0 else 1) +
         (handleButtonRun (handleButton p.1 p.2 s) ps).2) := rfl

/-- Helper: handleButtonRun splits over list append, states threading
through and toggle counts adding. -/
lemma handleButtonRun_append (s : ButtonState) (xs ys : List (Bool × Nat)) :
    handleButtonRun s (xs ++ ys) =
      ((handleButtonRun (handleButtonRun s xs).1 ys).1,
       (handleButtonRun s xs).2 +
         (handleButtonRun (handleButtonRun s xs).1 ys).2) := by
  induction xs generalizing s with
  | nil => simp [handleButtonRun]
  | cons p ps ih =>
    simp only [List.cons_append, handleButtonRun_cons, ih, Nat.add_assoc]

/-- Helper: while a press is in progress, pressed polls strictly before
the 2000 ms threshold leave the state untouched and toggle nothing. -/
lemma handleButtonRun_pressed_idle (ts : List Nat) (s : ButtonState)
    (hb : s.buttonPressTime ≠ 0)
    (hts : ∀ t ∈ ts, t < s.buttonPressTime + 2000) :
    handleButtonRun s (ts.map fun t => (true, t)) = (s, 0) := by
  induction ts with
  | nil => rfl
  | cons t ts ih =>
    have hstep : handleButton true t s = s :=
      handleButton_press_wait t s hb
        (by have := hts t (List.mem_cons_self t ts); omega)
    rw [List.map_cons, handleButtonRun_cons, hstep,
      ih fun u hu => hts u (List.mem_cons_of_mem t hu)]
    simp

/-- Helper: after the toggle has cleared the press timer, further pressed
polls at times at least A and strictly before A + 2000 re-record the
press start but never toggle again, whenever the incoming timer is clear
or at least A. -/
lemma handleButtonRun_pressed_rearm (A : Nat) (hA : 0 < A) (ts : List Nat) :
    ∀ s : ButtonState,
    s.buttonPressTime = 0 ∨ A ≤ s.buttonPressTime →
    (∀ t ∈ ts, A ≤ t ∧ t < A + 2000) →
    (handleButtonRun s (ts.map fun t => (true, t))).1.displayMode = s.displayMode ∧
    (handleButtonRun s (ts.map fun t => (true, t))).2 = 0 := by
  induction ts with
  | nil => intro s _ _; exact ⟨rfl, rfl⟩
  | cons t ts ih =>
    intro s hb hts
    rcases hb with hb | hb
    · have hstep : handleButton true t s = { s with buttonPressTime := t } :=
        handleButton_press_start t s hb
      have htail := ih { s with buttonPressTime := t }
        (Or.inr (hts t (List.mem_cons_self t ts)).1)
        (fun u hu => hts u (List.mem_cons_of_mem t hu))
      rw [List.map_cons, handleButtonRun_cons, hstep]
      exact ⟨htail.1, by simp [htail.2]⟩
    · have hbne : s.buttonPressTime ≠ 0 := by omega
      have hstep : handleButton true t s = s :=
        handleButton_press_wait t s hbne
          (by have := (hts t (List.mem_cons_self t ts)).2; omega)
      have htail := ih s (Or.inr hb)
        (fun u hu => hts u (List.mem_cons_of_mem t hu))
      rw [List.map_cons, handleButtonRun_cons, hstep]
      exact ⟨htail.1, by simp [htail.2]⟩

/-- Helper: handleButtonRun on the empty poll list. -/
lemma handleButtonRun_nil (s : ButtonState) : handleButtonRun s [] = (s, 0) := rfl

/-- C2 (amended): during one continuous press first observed at a nonzero
millis value t0, handleButton toggles displayMode exactly once provided
the press ends before a second 2000 ms period elapses after the toggle:
with intermediate pressed polls before t0 + 2000, one pressed poll tc at
or past t0 + 2000, further pressed polls before tc + 2000 and then the
release, the display mode has been toggled exactly once.  (Holding
longer re-arms the timer and toggles again every further 2000 ms.) -/
theorem handleButton_long_press_toggles_once (mode0 : DisplayMode) (al r b : Bool)
    (t0 tc tr : Nat) (mid post : List Nat)
    (h0 : 0 < t0)
    (hmid : ∀ t ∈ mid, t < t0 + 2000)
    (hc : t0 + 2000 ≤ tc)
    (hpost : ∀ t ∈ post, tc ≤ t ∧ t < tc + 2000) :
    (handleButtonRun ⟨mode0, al, 0, r, b⟩
        ((true, t0) :: ((mid.map fun t => (true, t)) ++ (true, tc) ::
          ((post.map fun t => (true, t)) ++ [(false, tr)])))).1.displayMode =
      toggleMode mode0 ∧
    (handleButtonRun ⟨mode0, al, 0, r, b⟩
        ((true, t0) :: ((mid.map fun t => (true, t)) ++ (true, tc) ::
          ((post.map fun t => (true, t)) ++ [(false, tr)])))).2 = 1 := by
  have ht0 : t0 ≠ 0 := by omega
  have hstep0 : handleButton true t0 (⟨mode0, al, 0, r, b⟩ : ButtonState) =
      ⟨mode0, al, t0, r, b⟩ := handleButton_press_start t0 _ rfl
  have hidle : handleButtonRun (⟨mode0, al, t0, r, b⟩ : ButtonState)
      (mid.map fun t => (true, t)) = (⟨mode0, al, t0, r, b⟩, 0) :=
    handleButtonRun_pressed_idle mid _ ht0 hmid
  have hstep1 : handleButton true tc (⟨mode0, al, t0, r, b⟩ : ButtonState) =
      ⟨toggleMode mode0, al, 0, r, b⟩ :=
    handleButton_press_toggle tc _ ht0 (by show 2000 ≤ tc - t0; omega)
  have hrearm := handleButtonRun_pressed_rearm tc (by omega) post
      ⟨toggleMode mode0, al, 0, r, b⟩ (Or.inl rfl) hpost
  constructor <;>
    simp [handleButtonRun_cons, handleButtonRun_append, handleButtonRun_nil,
      hstep0, hidle, hstep1, hrearm.1, hrearm.2, handleButton_release_mode,
      toggleMode_ne]

/-- Witness for handleButton_long_press_toggles_once: press registered at
100 ms, held through 1100 ms, threshold crossed at 2100 ms, still held at
2200 ms, released at 2300 ms - one toggle. -/
theorem handleButton_long_press_toggles_once_witness :
    (handleButtonRun ⟨DisplayMode.Batteries, false, 0, false, false⟩
        ((true, 100) :: (([1100].map fun t => (true, t)) ++ (true, 2100) ::
          (([2200].map fun t => (true, t)) ++ [(false, 2300)])))).1.displayMode =
      toggleMode DisplayMode.Batteries ∧
    (handleButtonRun ⟨DisplayMode.Batteries, false, 0, false, false⟩
        ((true, 100) :: (([1100].map fun t => (true, t)) ++ (true, 2100) ::
          (([2200].map fun t => (true, t)) ++ [(false, 2300)])))).2 = 1 :=
  handleButton_long_press_toggles_once .Batteries false false false 100 2100 2300
    [1100] [2200] (by norm_num)
    (by intro t ht; simp at ht; omega)
    (by norm_num)
    (by intro t ht; simp at ht; omega)

/-- C2 counterexample: a single continuous press polled at 100, 2100,
2200 and 4200 ms (never released) toggles displayMode twice - once when
crossing the threshold at 2100 ms and again at 4200 ms, because the
toggle clears buttonPressTime and the next pressed poll re-records it -
so a press held at least 2000 ms is not toggled exactly once before
release. -/
theorem handleButton_held_press_toggles_twice :
    (handleButtonRun ⟨DisplayMode.Batteries, false, 0, false, false⟩
        [(true, 100), (true, 2100), (true, 2200), (true, 4200)]).2 = 2 ∧
    (handleButtonRun ⟨DisplayMode.Batteries, false, 0, false, false⟩
        [(true, 100), (true, 2100), (true, 2200), (true, 4200)]).1.displayMode =
      DisplayMode.Batteries := by decide

/-- C7 (amended): a press first observed at a nonzero millis value t0 and
released before 2000 ms have elapsed clears alarmActive, switches the red
LED off and silences the buzzer at the release poll, and leaves
displayMode unchanged. -/
theorem handleButton_short_press_resets (mode0 : DisplayMode) (al r b : Bool)
    (t0 tr : Nat) (mid : List Nat)
    (h0 : 0 < t0)
    (hmid : ∀ t ∈ mid, t < t0 + 2000)
    (hr : tr < t0 + 2000) :
    (handleButtonRun ⟨mode0, al, 0, r, b⟩
        ((true, t0) :: ((mid.map fun t => (true, t)) ++ [(false, tr)]))).1 =
      ⟨mode0, false, 0, false, false⟩ := by
  have ht0 : t0 ≠ 0 := by omega
  have hstep0 : handleButton true t0 (⟨mode0, al, 0, r, b⟩ : ButtonState) =
      ⟨mode0, al, t0, r, b⟩ := handleButton_press_start t0 _ rfl
  have hidle : handleButtonRun (⟨mode0, al, t0, r, b⟩ : ButtonState)
      (mid.map fun t => (true, t)) = (⟨mode0, al, t0, r, b⟩, 0) :=
    handleButtonRun_pressed_idle mid _ ht0 hmid
  have hrel : handleButton false tr (⟨mode0, al, t0, r, b⟩ : ButtonState) =
      ⟨mode0, false, 0, false, false⟩ :=
    handleButton_release_reset tr _ (by show 0 < t0; omega)
      (by show tr - t0 < 2000; omega)
  simp [handleButtonRun_cons, handleButtonRun_append, handleButtonRun_nil,
    hstep0, hidle, hrel]

/-- Witness for handleButton_short_press_resets: press registered at
100 ms, held at 600 ms, released at 700 ms - alarm, red LED and buzzer
all cleared, mode untouched. -/
theorem handleButton_short_press_resets_witness :
    (handleButtonRun ⟨DisplayMode.Batteries, true, 0, true, true⟩
        ((true, 100) :: (([600].map fun t => (true, t)) ++ [(false, 700)]))).1 =
      ⟨DisplayMode.Batteries, false, 0, false, false⟩ :=
  handleButton_short_press_resets .Batteries true true true 100 700 [600]
    (by norm_num)
    (by intro t ht; simp at ht; omega)
    (by norm_num)

/-- C7 counterexample: a press first observed at millis() = 0 is never
registered, because buttonPressTime = 0 doubles as the no-press sentinel,
so its release 100 ms later does not clear the alarm. -/
theorem handleButton_press_at_boot_no_reset :
    (handleButtonRun ⟨DisplayMode.Batteries, true, 0, true, true⟩
        [(true, 0), (false, 100)]).1.alarmActive = true := by decide
